import Mathlib

/-!
Verification of the MyRideWallet voice-agent tool layer (agent.py).

The file shallowly embeds the tool-dispatch layer of the agent: the three
callable tools (list_passes, check_balances, purchase_passes), the prompt
loader (load_prompt), and a Balance Evaluator modelled from the design
document, since the balance-selection policy exists in the repository only
as natural-language docstring guidance to the conversational model.

HTTP transport is modelled by a deterministic oracle mapping each request
to a response; every tool returns the list of requests it issued (its
network trace) together with a Python-style outcome that is either a
returned value or a raised exception.
-/

/-- One entry of the pass_ids array of the purchase POST body. -/
structure PassOrder where
  pass_id : String
  quantity : Int
deriving Repr, DecidableEq

/-- The JSON body of the purchase POST as built in purchase_passes. -/
structure PurchasePayload where
  wallet_type : String
  pass_ids : List PassOrder
deriving Repr, DecidableEq

/-- An HTTP request as assembled by the agent: method, path (including any
query string written inline in the source), the params dict, the headers
dict, and an optional JSON body (only the purchase tool sends one). -/
structure HttpRequest where
  method : String
  path : String
  params : List (String × String)
  headers : List (String × String)
  body : Option PurchasePayload
deriving Repr, DecidableEq

/-- An HTTP response: status code and raw body text. -/
structure HttpResponse where
  status : Nat
  text : String
deriving Repr, DecidableEq

/-- The backend, modelled as a deterministic map from requests to responses. -/
def Oracle : Type := HttpRequest → HttpResponse

/-- A Python exception as raised by the agent code: either a plain
Exception carrying only its message string, or an AttributeError. -/
inductive PyError where
  | exn : String → PyError
  | attrError : String → PyError
deriving Repr, DecidableEq

/-- Outcome of running a Python function: a returned value or a raised
exception. The distinction mirrors return vs raise in the source. -/
inductive PyResult (α : Type) where
  | ok : α → PyResult α
  | raised : PyError → PyResult α
deriving Repr, DecidableEq

/-- Map over the returned value of a PyResult. -/
def pyMap {α β : Type} (f : α → β) : PyResult α → PyResult β
  | PyResult.ok a => PyResult.ok (f a)
  | PyResult.raised e => PyResult.raised e

/-- The result of response.json() in the source: the response body after
JSON parsing, kept abstract as the tagged raw text. -/
structure ParsedJson where
  raw : String
deriving Repr, DecidableEq

/-- The shared params dict of the two GET tools (lines 82-86 and 115-119). -/
def stdParams : List (String × String) :=
  [("limit", "100"), ("offset", "0"), ("show_all", "true")]

/-- Headers sent by list_passes and check_balances (lines 75-80, 108-113). -/
def getHeaders (auth_key : String) : List (String × String) :=
  [("accept", "*/*"), ("accept-language", "en-US,en;q=0.9"),
   ("authorization", "Bearer " ++ auth_key), ("content-type", "application/json")]

/-- Headers sent by purchase_passes (lines 163-167). -/
def postHeaders (auth_key : String) : List (String × String) :=
  [("accept", "*/*"), ("authorization", "Bearer " ++ auth_key),
   ("Content-Type", "application/json")]

/-- The single GET issued by list_passes (line 89): the provider is
interpolated into the path query string, the params dict is appended. -/
def listPassesRequest (auth_key transit_provider : String) : HttpRequest :=
  { method := "GET"
    path := "/api/passes?msp%5B%5D=" ++ transit_provider
    params := stdParams
    headers := getHeaders auth_key
    body := none }

/-- FunctionAgent.list_passes (lines 58-97): issues one GET; on status 200
returns the body text verbatim, otherwise raises a plain Exception whose
message carries the status code. Returns the network trace alongside. -/
def list_passes (auth_key transit_provider : String) (oracle : Oracle) :
    List HttpRequest × PyResult String :=
  let req := listPassesRequest auth_key transit_provider
  let resp := oracle req
  if resp.status = 200 then
    ([req], PyResult.ok resp.text)
  else
    ([req], PyResult.raised (PyError.exn
      ("Failed to list available passes, status code: " ++ toString resp.status)))

/-- The GET issued for one wallet inside check_balances (line 124); the
source path has no leading slash. -/
def walletRequest (auth_key wallet : String) : HttpRequest :=
  { method := "GET"
    path := "api/rider/" ++ wallet ++ "-wallet"
    params := stdParams
    headers := getHeaders auth_key
    body := none }

/-- The loop body of check_balances (lines 122-132): wallets are read in
list order, each successful body is appended to the accumulator, and the
first non-200 response raises immediately. The raised message is the
literal of line 131 and always says subsidy wallet, whichever wallet
failed. -/
def checkBalancesLoop (auth_key : String) (oracle : Oracle) :
    List String → List String → List HttpRequest × PyResult (List String)
  | [], balances => ([], PyResult.ok balances)
  | w :: ws, balances =>
    let req := walletRequest auth_key w
    let resp := oracle req
    if resp.status = 200 then
      let rest := checkBalancesLoop auth_key oracle ws (balances ++ [resp.text])
      (req :: rest.1, rest.2)
    else
      ([req], PyResult.raised (PyError.exn
        ("Failed to get the user\x27s subsidy wallet: " ++ toString resp.status)))

/-- FunctionAgent.check_balances (lines 99-134): reads the subsidy wallet
then the personal wallet and returns the list of both bodies. -/
def check_balances (auth_key : String) (oracle : Oracle) :
    List HttpRequest × PyResult (List String) :=
  checkBalancesLoop auth_key oracle ["subsidy", "personal"] []

/-- The POST issued by purchase_passes (lines 169-181) with the JSON body
of lines 169-177. -/
def purchaseRequest (auth_key pass_id type_of_wallet : String) (quantity : Int) :
    HttpRequest :=
  { method := "POST"
    path := "/api/rider/passes"
    params := []
    headers := postHeaders auth_key
    body := some { wallet_type := type_of_wallet
                   pass_ids := [{ pass_id := pass_id, quantity := quantity }] } }

/-- FunctionAgent.purchase_passes (lines 136-190): no argument validation
of any kind; builds the payload from its arguments verbatim, issues one
POST, returns the parsed JSON body on status 200 and otherwise raises a
plain Exception carrying the pass id and the status code (not the body). -/
def purchase_passes (auth_key pass_id type_of_wallet : String) (quantity : Int)
    (oracle : Oracle) : List HttpRequest × PyResult ParsedJson :=
  let req := purchaseRequest auth_key pass_id type_of_wallet quantity
  let resp := oracle req
  if resp.status = 200 then
    ([req], PyResult.ok (ParsedJson.mk resp.text))
  else
    ([req], PyResult.raised (PyError.exn
      ("Failed to purchase pass " ++ pass_id ++ ", status code: " ++ toString resp.status)))

/-- The per-session state held by FunctionAgent.__init__ (lines 46-56):
exactly username and auth_key. No field records balances, resolved pass
ids, or any other flow context. -/
structure FunctionAgent where
  username : String
  auth_key : String
deriving Repr, DecidableEq

/-- A tool invocation the conversational model can emit. -/
inductive ToolCall where
  | listPassesCall : String → ToolCall
  | checkBalancesCall : ToolCall
  | purchasePassesCall : String → String → Int → ToolCall
deriving Repr, DecidableEq

/-- A tool result, as handed back to the model. -/
inductive ToolResult where
  | text : String → ToolResult
  | texts : List String → ToolResult
  | json : ParsedJson → ToolResult
deriving Repr, DecidableEq

/-- Dispatch of one tool call against the agent. The agent state is read
only for auth_key and is never written: the source tools mutate nothing. -/
def dispatchTool (a : FunctionAgent) (oracle : Oracle) :
    ToolCall → List HttpRequest × PyResult ToolResult
  | ToolCall.listPassesCall p =>
    let r := list_passes a.auth_key p oracle
    (r.1, pyMap ToolResult.text r.2)
  | ToolCall.checkBalancesCall =>
    let r := check_balances a.auth_key oracle
    (r.1, pyMap ToolResult.texts r.2)
  | ToolCall.purchasePassesCall pid w q =>
    let r := purchase_passes a.auth_key pid w q oracle
    (r.1, pyMap ToolResult.json r.2)

/-- A conversational flow: the model issues tool calls one at a time; each
is dispatched independently, with no state threaded between calls, which
is faithful to the source (tools share only the immutable agent fields). -/
def runFlow (a : FunctionAgent) (oracle : Oracle) (calls : List ToolCall) :
    List (List HttpRequest × PyResult ToolResult) :=
  calls.map (dispatchTool a oracle)

/-- Whether a flow contains a check_balances call. -/
def hasBalanceCheck (calls : List ToolCall) : Bool :=
  calls.any (fun c => match c with
    | ToolCall.checkBalancesCall => true
    | _ => false)

/-- Whether a flow contains a list_passes call. -/
def hasPassLookup (calls : List ToolCall) : Bool :=
  calls.any (fun c => match c with
    | ToolCall.listPassesCall _ => true
    | _ => false)

/-- A parsed YAML document, as yaml.safe_load may return it. -/
inductive YamlVal where
  | ynull : YamlVal
  | ystr : String → YamlVal
  | ylist : List YamlVal → YamlVal
  | ymap : List (String × YamlVal) → YamlVal

/-- What happens when the prompt file is opened and parsed: the file is
missing (FileNotFoundError), yaml.safe_load raises yaml.YAMLError, or a
YAML document is produced. -/
inductive PromptFile where
  | missing : PromptFile
  | yamlError : String → PromptFile
  | parsed : YamlVal → PromptFile

/-- Python dict.get with a default. -/
def dictGet (kv : List (String × YamlVal)) (key : String) (dflt : YamlVal) : YamlVal :=
  match kv with
  | [] => dflt
  | (k, v) :: rest => if k = key then v else dictGet rest key dflt

/-- load_prompt (lines 6-16): FileNotFoundError and yaml.YAMLError are
caught (logged, empty string returned). When the document parses, the code
calls prompt_data.get, which exists only on a mapping: any other document
shape (null from an empty file, a list, a bare string) raises an uncaught
AttributeError. -/
def load_prompt (file : PromptFile) : PyResult YamlVal :=
  match file with
  | PromptFile.missing => PyResult.ok (YamlVal.ystr "")
  | PromptFile.yamlError _ => PyResult.ok (YamlVal.ystr "")
  | PromptFile.parsed (YamlVal.ymap kv) =>
    PyResult.ok (dictGet kv "instructions" (YamlVal.ystr ""))
  | PromptFile.parsed _ => PyResult.raised (PyError.attrError "get")

/-- Outcome of the Balance Evaluator. -/
inductive BalanceDecision where
  | UseSubsidy : BalanceDecision
  | UsePersonal : BalanceDecision
  | InsufficientFunds : BalanceDecision
  | AmbiguousChooseOne : Int → Int → BalanceDecision
deriving Repr, DecidableEq

/-- Total cost of a purchase: unit price times quantity. -/
def totalCost (unitPrice quantity : Int) : Int := unitPrice * quantity

/-- Modelled from the spec: the Balance Evaluator of design section 4.2 is
missing from the source as code; in the repository it exists only as the
docstring of purchase_passes (lines 144-160) instructing the conversational
model. Policy as specified: with cost = unitPrice * quantity, if both
wallets cover the cost the choice is surfaced as AmbiguousChooseOne; if
exactly one covers it, that wallet is selected automatically only when the
other balance is strictly zero, otherwise the ambiguity is surfaced; if
neither covers it, InsufficientFunds. -/
def balanceEvaluator (subsidyBalance personalBalance unitPrice quantity : Int) :
    BalanceDecision :=
  let cost := totalCost unitPrice quantity
  if cost ≤ subsidyBalance ∧ cost ≤ personalBalance then
    BalanceDecision.AmbiguousChooseOne subsidyBalance personalBalance
  else if cost ≤ subsidyBalance then
    (if personalBalance = 0 then BalanceDecision.UseSubsidy
     else BalanceDecision.AmbiguousChooseOne subsidyBalance personalBalance)
  else if cost ≤ personalBalance then
    (if subsidyBalance = 0 then BalanceDecision.UsePersonal
     else BalanceDecision.AmbiguousChooseOne subsidyBalance personalBalance)
  else
    BalanceDecision.InsufficientFunds

/-- Result of binding the arguments of a tool call against its declared
schema. -/
inductive ArgBinding where
  | bound : String → ArgBinding
  | missingRequired : String → ArgBinding
  | invalidLiteral : String → ArgBinding
deriving Repr, DecidableEq

/-- The closed provider set of the Literal annotation (line 61). -/
def knownProviders : List String := ["DDOT", "SMART", "Regional"]

/-- The argument schema of list_passes as declared in the source (lines
59-62): transit_provider is a required parameter with no default and is
not Optional, typed Literal of the three providers. An absent argument is
a missing-required-argument error; a present one is checked against the
closed set. -/
def bindTransitProvider (arg : Option String) : ArgBinding :=
  match arg with
  | none => ArgBinding.missingRequired "transit_provider"
  | some p =>
    if p ∈ knownProviders then ArgBinding.bound p
    else ArgBinding.invalidLiteral p

/-- A backend that answers every request with status 200 and the body
CONFIRMED. -/
def ok200 : Oracle := fun _ => { status := 200, text := "CONFIRMED" }

/-- A backend that answers every request with status 500. -/
def err500 : Oracle := fun _ => { status := 500, text := "oops" }

/-- A backend that answers every request with status 402 and the given
body. -/
def deny402 (body : String) : Oracle := fun _ => { status := 402, text := body }

/-- A backend where the subsidy wallet read succeeds and the personal
wallet read fails with status 500. -/
def personalFails : Oracle := fun req =>
  if req.path = "api/rider/personal-wallet" then { status := 500, text := "ERR" }
  else { status := 200, text := "SUB" }

/-- A backend where both wallet reads succeed with distinct bodies. -/
def bothWalletsOk : Oracle := fun req =>
  if req.path = "api/rider/subsidy-wallet" then { status := 200, text := "SUB" }
  else if req.path = "api/rider/personal-wallet" then { status := 200, text := "PER" }
  else { status := 200, text := "CONFIRMED" }

/-- A backend where the subsidy wallet read itself fails with status 503. -/
def subsidyFails : Oracle := fun req =>
  if req.path = "api/rider/subsidy-wallet" then { status := 503, text := "DOWN" }
  else { status := 200, text := "OK" }

/-- A demo agent instance. -/
def demoAgent : FunctionAgent := { username := "rider", auth_key := "k" }

/-- Claim C3: the Balance Evaluator is a pure function of subsidy balance,
personal balance, unit price and quantity, with cost = unitPrice times
quantity, and it maps the four specified vectors to UsePersonal,
AmbiguousChooseOne(50,50), InsufficientFunds and UseSubsidy respectively. -/
theorem C3_balance_evaluator_vectors :
    balanceEvaluator 0 50 10 1 = BalanceDecision.UsePersonal ∧
    balanceEvaluator 50 50 10 1 = BalanceDecision.AmbiguousChooseOne 50 50 ∧
    balanceEvaluator 5 0 10 1 = BalanceDecision.InsufficientFunds ∧
    balanceEvaluator 100 0 10 3 = BalanceDecision.UseSubsidy ∧
    totalCost 10 3 = 30 := by
  refine ⟨?_, ?_, ?_, ?_, ?_⟩ <;> decide

/-- Claim C10: check_balances issues the wallet reads sequentially, subsidy
first then personal; when both succeed the result is the two bodies in that
order; when the subsidy read fails, the personal wallet request is never
issued (the trace stops at the subsidy request). -/
theorem C10_check_balances_sequential (auth : String) (oracle : Oracle) :
    ((oracle (walletRequest auth "subsidy")).status = 200 →
      (oracle (walletRequest auth "personal")).status = 200 →
      check_balances auth oracle =
        ([walletRequest auth "subsidy", walletRequest auth "personal"],
          PyResult.ok [(oracle (walletRequest auth "subsidy")).text,
            (oracle (walletRequest auth "personal")).text])) ∧
    ((oracle (walletRequest auth "subsidy")).status ≠ 200 →
      (check_balances auth oracle).1 = [walletRequest auth "subsidy"]) := by
  constructor
  · intro hs hp
    simp [check_balances, checkBalancesLoop, hs, hp]
  · intro hs
    simp [check_balances, checkBalancesLoop, hs]

/-- Witness for C10 at a concrete backend where both wallet reads succeed. -/
theorem C10_check_balances_sequential_witness :
    (bothWalletsOk (walletRequest "k" "subsidy")).status = 200 ∧
    (bothWalletsOk (walletRequest "k" "personal")).status = 200 ∧
    check_balances "k" bothWalletsOk =
      ([walletRequest "k" "subsidy", walletRequest "k" "personal"],
        PyResult.ok ["SUB", "PER"]) :=
  ⟨rfl, rfl, (C10_check_balances_sequential "k" bothWalletsOk).1 rfl rfl⟩

/-- Claim C6: for every provider among DDOT, SMART and Regional, the tool
list_passes issues exactly one GET request whose query string carries that
provider and whose params are limit=100, offset=0, show_all=true, and on
status 200 it returns the response body verbatim. -/
theorem C6_list_passes_request_shape (auth p : String) (oracle : Oracle)
    (hp : p = "DDOT" ∨ p = "SMART" ∨ p = "Regional") :
    (list_passes auth p oracle).1 = [listPassesRequest auth p] ∧
    (listPassesRequest auth p).method = "GET" ∧
    (listPassesRequest auth p).path = "/api/passes?msp%5B%5D=" ++ p ∧
    (listPassesRequest auth p).params =
      [("limit", "100"), ("offset", "0"), ("show_all", "true")] ∧
    ((oracle (listPassesRequest auth p)).status = 200 →
      (list_passes auth p oracle).2 =
        PyResult.ok (oracle (listPassesRequest auth p)).text) := by
  refine ⟨?_, rfl, rfl, rfl, ?_⟩
  · by_cases h : (oracle (listPassesRequest auth p)).status = 200 <;>
      simp [list_passes, h]
  · intro h
    simp [list_passes, h]

/-- Witness for C6 at provider DDOT against a 200 backend. -/
theorem C6_list_passes_request_shape_witness :
    ("DDOT" = "DDOT" ∨ "DDOT" = "SMART" ∨ "DDOT" = "Regional") ∧
    (list_passes "k" "DDOT" ok200).2 = PyResult.ok "CONFIRMED" :=
  ⟨Or.inl rfl,
    (C6_list_passes_request_shape "k" "DDOT" ok200 (Or.inl rfl)).2.2.2.2 rfl⟩

/-- Claim C1, counterexample: a flow consisting of a single purchase_passes
call, with no list_passes and no check_balances anywhere before it, still
issues the purchase POST and completes the purchase; the implementation
does not refuse a purchase on absent balance context. -/
theorem C1_counterexample :
    hasBalanceCheck [ToolCall.purchasePassesCall "p123" "Subsidy" 1] = false ∧
    hasPassLookup [ToolCall.purchasePassesCall "p123" "Subsidy" 1] = false ∧
    runFlow demoAgent ok200 [ToolCall.purchasePassesCall "p123" "Subsidy" 1] =
      [([purchaseRequest "k" "p123" "Subsidy" 1],
        PyResult.ok (ToolResult.json (ParsedJson.mk "CONFIRMED")))] :=
  ⟨rfl, rfl, rfl⟩

/-- Claim C1 (amended): the implementation enforces no sequencing at all.
The agent state holds only username and auth_key, tool dispatch threads no
state between calls, so the outcome of a purchase_passes call is the same
whatever tool calls preceded it in the flow, and the purchase POST is
issued unconditionally. Ordering relies solely on prompt instructions. -/
theorem C1_amended_no_enforcement (a : FunctionAgent) (oracle : Oracle)
    (pre : List ToolCall) (pid w : String) (q : Int) :
    runFlow a oracle (pre ++ [ToolCall.purchasePassesCall pid w q]) =
      runFlow a oracle pre ++
        [dispatchTool a oracle (ToolCall.purchasePassesCall pid w q)] ∧
    (dispatchTool a oracle (ToolCall.purchasePassesCall pid w q)).1 =
      [purchaseRequest a.auth_key pid w q] := by
  constructor
  · simp [runFlow]
  · by_cases h : (oracle (purchaseRequest a.auth_key pid w q)).status = 200 <;>
      simp [dispatchTool, purchase_passes, h]

/-- Claim C2, counterexample: calling purchase_passes with empty pass_id
and quantity 0 issues the network POST carrying exactly those values and
returns the backend confirmation; no ValidationError exists. -/
theorem C2_counterexample :
    (purchase_passes "k" "" "Subsidy" 0 ok200).1 =
      [purchaseRequest "k" "" "Subsidy" 0] ∧
    (purchaseRequest "k" "" "Subsidy" 0).body =
      some { wallet_type := "Subsidy", pass_ids := [{ pass_id := "", quantity := 0 }] } ∧
    (purchase_passes "k" "" "Subsidy" 0 ok200).2 =
      PyResult.ok (ParsedJson.mk "CONFIRMED") :=
  ⟨rfl, rfl, rfl⟩

/-- Claim C2 (amended): purchase_passes performs no argument validation:
for every call, including quantity 0 or negative and empty pass_id, the
purchase POST is issued carrying exactly the given arguments in its
payload. -/
theorem C2_amended_no_validation (auth pid w : String) (q : Int) (oracle : Oracle)
    (hbad : q ≤ 0 ∨ pid = "") :
    (purchase_passes auth pid w q oracle).1 = [purchaseRequest auth pid w q] ∧
    (purchaseRequest auth pid w q).body =
      some { wallet_type := w, pass_ids := [{ pass_id := pid, quantity := q }] } := by
  constructor
  · by_cases h : (oracle (purchaseRequest auth pid w q)).status = 200 <;>
      simp [purchase_passes, h]
  · rfl

/-- Witness for the amended C2 at quantity 0 against a failing backend. -/
theorem C2_amended_no_validation_witness :
    ((0 : Int) ≤ 0 ∨ ("" : String) = "") ∧
    (purchase_passes "k" "" "Subsidy" 0 err500).1 =
      [purchaseRequest "k" "" "Subsidy" 0] :=
  ⟨Or.inl (le_refl 0),
    (C2_amended_no_validation "k" "" "Subsidy" 0 err500 (Or.inl (le_refl 0))).1⟩

/-- Claim C4, evaluation at the failing input: the subsidy read succeeds
with status 200 and the personal read fails with status 500, yet the
raised message is the line 131 literal naming the subsidy wallet, not the
personal wallet that actually failed. -/
theorem C4_code_bug_eval :
    (personalFails (walletRequest "k" "subsidy")).status = 200 ∧
    (personalFails (walletRequest "k" "personal")).status = 500 ∧
    check_balances "k" personalFails =
      ([walletRequest "k" "subsidy", walletRequest "k" "personal"],
        PyResult.raised
          (PyError.exn "Failed to get the user\x27s subsidy wallet: 500")) :=
  ⟨rfl, rfl, rfl⟩

/-- Claim C5, counterexample: a list_passes failure on status 500 surfaces
as a raised plain Exception carrying only a message string; no structured
result with kind and operation fields is returned. -/
theorem C5_counterexample :
    (list_passes "k" "DDOT" err500).2 =
      PyResult.raised
        (PyError.exn "Failed to list available passes, status code: 500") :=
  rfl

/-- Claim C5 (amended): every tool failure on a non-success status surfaces
as a raised plain Exception whose only payload is a human-readable message
embedding the operation context and the status code; no structured result
carrying kind and operation fields is produced by this layer. -/
theorem C5_amended_raised_exceptions (auth p pid w : String) (q : Int)
    (oracle : Oracle) :
    ((oracle (listPassesRequest auth p)).status ≠ 200 →
      (list_passes auth p oracle).2 = PyResult.raised (PyError.exn
        ("Failed to list available passes, status code: " ++
          toString (oracle (listPassesRequest auth p)).status))) ∧
    ((oracle (walletRequest auth "subsidy")).status ≠ 200 →
      (check_balances auth oracle).2 = PyResult.raised (PyError.exn
        ("Failed to get the user\x27s subsidy wallet: " ++
          toString (oracle (walletRequest auth "subsidy")).status))) ∧
    ((oracle (walletRequest auth "subsidy")).status = 200 →
      (oracle (walletRequest auth "personal")).status ≠ 200 →
      (check_balances auth oracle).2 = PyResult.raised (PyError.exn
        ("Failed to get the user\x27s subsidy wallet: " ++
          toString (oracle (walletRequest auth "personal")).status))) ∧
    ((oracle (purchaseRequest auth pid w q)).status ≠ 200 →
      (purchase_passes auth pid w q oracle).2 = PyResult.raised (PyError.exn
        ("Failed to purchase pass " ++ pid ++ ", status code: " ++
          toString (oracle (purchaseRequest auth pid w q)).status))) := by
  refine ⟨?_, ?_, ?_, ?_⟩
  · intro h
    simp [list_passes, h]
  · intro h
    simp [check_balances, checkBalancesLoop, h]
  · intro hs hp
    simp [check_balances, checkBalancesLoop, hs, hp]
  · intro h
    simp [purchase_passes, h]

/-- Witness for the amended C5: a purchase failing with status 402 raises
the message-only Exception. -/
theorem C5_amended_raised_exceptions_witness :
    (deny402 "B" (purchaseRequest "k" "x" "Personal" 1)).status ≠ 200 ∧
    (purchase_passes "k" "x" "Personal" 1 (deny402 "B")).2 =
      PyResult.raised
        (PyError.exn "Failed to purchase pass x, status code: 402") :=
  ⟨by decide,
    (C5_amended_raised_exceptions "k" "DDOT" "x" "Personal" 1
      (deny402 "B")).2.2.2 (by decide)⟩

/-- Claim C7, counterexample: the transit_provider parameter of
list_passes is a required Literal with no default and is not Optional, so
an omitted provider is a missing-required-argument error, not a valid
list-all call. -/
theorem C7_counterexample :
    bindTransitProvider none = ArgBinding.missingRequired "transit_provider" :=
  rfl

/-- Claim C7 (amended): transit_provider is required: an omitted provider
fails argument binding; a supplied provider is validated against the known
set DDOT, SMART, Regional, and values outside it are rejected. Listing all
providers when the user names none is handled by the docstring instructing
the model to call the tool once per provider, not by an optional argument. -/
theorem C7_amended_required_provider :
    bindTransitProvider none = ArgBinding.missingRequired "transit_provider" ∧
    (∀ p, p ∈ knownProviders → bindTransitProvider (some p) = ArgBinding.bound p) ∧
    (∀ p, p ∉ knownProviders →
      bindTransitProvider (some p) = ArgBinding.invalidLiteral p) := by
  refine ⟨rfl, ?_, ?_⟩
  · intro p hp
    simp [bindTransitProvider, hp]
  · intro p hp
    simp [bindTransitProvider, hp]

/-- Witness for the amended C7 at a known and an unknown provider. -/
theorem C7_amended_required_provider_witness :
    ("DDOT" ∈ knownProviders ∧
      bindTransitProvider (some "DDOT") = ArgBinding.bound "DDOT") ∧
    ("BART" ∉ knownProviders ∧
      bindTransitProvider (some "BART") = ArgBinding.invalidLiteral "BART") :=
  ⟨⟨by decide, C7_amended_required_provider.2.1 "DDOT" (by decide)⟩,
    ⟨by decide, C7_amended_required_provider.2.2 "BART" (by decide)⟩⟩

/-- Claim C8, counterexample: a prompt file that is present but malformed
relative to the required shape, for example an empty file whose YAML
document is null, makes load_prompt raise an uncaught AttributeError
instead of returning the empty instruction string. -/
theorem C8_counterexample :
    load_prompt (PromptFile.parsed YamlVal.ynull) =
      PyResult.raised (PyError.attrError "get") :=
  rfl

/-- Claim C8 (amended): load_prompt survives a missing file and a YAML
parse error, returning the empty instruction string after logging; but a
file whose document parses to anything other than a mapping, such as null
from an empty file or a top-level list, raises an uncaught AttributeError
and crashes the agent. -/
theorem C8_amended_load_prompt (m : String) (v : YamlVal)
    (hv : ∀ kv, v ≠ YamlVal.ymap kv) :
    load_prompt PromptFile.missing = PyResult.ok (YamlVal.ystr "") ∧
    load_prompt (PromptFile.yamlError m) = PyResult.ok (YamlVal.ystr "") ∧
    load_prompt (PromptFile.parsed v) =
      PyResult.raised (PyError.attrError "get") := by
  refine ⟨rfl, rfl, ?_⟩
  cases v with
  | ynull => rfl
  | ystr s => rfl
  | ylist l => rfl
  | ymap kv => exact absurd rfl (hv kv)

/-- Witness for the amended C8 at a top-level list document. -/
theorem C8_amended_load_prompt_witness :
    load_prompt (PromptFile.parsed (YamlVal.ylist [])) =
      PyResult.raised (PyError.attrError "get") :=
  (C8_amended_load_prompt "err" (YamlVal.ylist [])
    (fun kv h => YamlVal.noConfusion h)).2.2

/-- Claim C9, counterexample: a purchase denied with status 402 raises a
plain Exception whose message carries the status but not the response
body: the outcome is identical for two distinct backend bodies, so the
failure cannot carry the body, and it is not a structured UpstreamError. -/
theorem C9_counterexample :
    (purchase_passes "k" "p123" "Subsidy" 2 (deny402 "bodyA")).2 =
      PyResult.raised
        (PyError.exn "Failed to purchase pass p123, status code: 402") ∧
    (purchase_passes "k" "p123" "Subsidy" 2 (deny402 "bodyB")).2 =
      (purchase_passes "k" "p123" "Subsidy" 2 (deny402 "bodyA")).2 ∧
    "bodyA" ≠ "bodyB" :=
  ⟨rfl, rfl, by decide⟩

/-- Claim C9 (amended): purchase_passes issues exactly one POST per call,
with no retry; on status 200 it returns the parsed confirmation body; on
any non-success status, 402 included, it raises a plain Exception whose
message carries the status code but not the response body. -/
theorem C9_amended_purchase_outcomes (auth pid w : String) (q : Int)
    (oracle : Oracle) :
    (purchase_passes auth pid w q oracle).1 = [purchaseRequest auth pid w q] ∧
    ((oracle (purchaseRequest auth pid w q)).status = 200 →
      (purchase_passes auth pid w q oracle).2 =
        PyResult.ok (ParsedJson.mk (oracle (purchaseRequest auth pid w q)).text)) ∧
    ((oracle (purchaseRequest auth pid w q)).status ≠ 200 →
      (purchase_passes auth pid w q oracle).2 = PyResult.raised (PyError.exn
        ("Failed to purchase pass " ++ pid ++ ", status code: " ++
          toString (oracle (purchaseRequest auth pid w q)).status))) := by
  refine ⟨?_, ?_, ?_⟩
  · by_cases h : (oracle (purchaseRequest auth pid w q)).status = 200 <;>
      simp [purchase_passes, h]
  · intro h
    simp [purchase_passes, h]
  · intro h
    simp [purchase_passes, h]

/-- Witness for the amended C9: the specified purchase against a 200
backend returns the parsed confirmation. -/
theorem C9_amended_purchase_outcomes_witness :
    (ok200 (purchaseRequest "k" "p123" "Subsidy" 2)).status = 200 ∧
    (purchase_passes "k" "p123" "Subsidy" 2 ok200).2 =
      PyResult.ok (ParsedJson.mk "CONFIRMED") :=
  ⟨rfl, (C9_amended_purchase_outcomes "k" "p123" "Subsidy" 2 ok200).2.1 rfl⟩
